import Mathlib

/-!
# Verification of the temp-control decision core (`src/main.py`)

Shallow embedding of the control-decision subsystem of the thermostat
controller: configuration ingestion (`handle_incoming_message`,
`parse_schedule`), schedule evaluation (`determine_temp_adjustment`),
and one decision cycle of `main`'s temperature loop (temperature
conversion, smoothing seed, schedule adjustment, heating decision,
cooling decision with the cooldown state machine, end-of-cycle updates).

Temperatures are rationals, day counts and the cooldown counter are
integers.  Python values that may be `None` (because `dict.get` returns
`None` for a missing key, or because the payload holds `null`) are
`Option`s.  A Python runtime error (TypeError on `None` arithmetic or
comparison, KeyError on a missing dict key, IndexError) is modelled by a
`Bool` success flag: the mutations performed before the raising
expression are kept, later statements are skipped, mirroring how
exceptions interact with the module-level globals in the source.
-/

namespace TempControl

/-- The cooling state machine's state: the values of the global
`cooling_state` string (`'off'`, `'on'`, `'waiting'`). -/
inductive CoolingState
  | off
  | on
  | waiting
deriving Repr, DecidableEq

/-- The mutable module-level state of `main.py` that the decision core
reads and writes: the globals declared at lines 41–54 of the source,
including the fields of the `publish_data` dict that the core uses. -/
structure SysState where
  /-- global `previous_temp` (line 41), initially `0.0`. -/
  previousTemp : ℚ
  /-- global `config_done` (line 42). -/
  configDone : Bool
  /-- global `minimum_off_mins` (line 43); `config.get` may install `None`. -/
  minimumOffMins : Option ℤ
  /-- global `schedule_start_time` (line 45), an abstract parsed timestamp. -/
  scheduleStartTime : Option ℤ
  /-- global `base_low_temp` (line 47); the config may install `None`. -/
  baseLowTemp : Option ℚ
  /-- global `base_high_temp` (line 48). -/
  baseHighTemp : Option ℚ
  /-- global `cooling_off_count` (line 49). -/
  coolingOffCount : ℤ
  /-- global `cooling_state` (line 50). -/
  coolingState : CoolingState
  /-- global `schedule_adjust_days` (line 51). -/
  scheduleAdjustDays : List ℤ
  /-- global `schedule_adjust_temp` (line 52). -/
  scheduleAdjustTemp : List ℚ
  /-- global `schedule_adjustment` (line 46). -/
  scheduleAdjustment : ℚ
  /-- `publish_data['currentTemp']`. -/
  pubCurrentTemp : ℚ
  /-- `publish_data['lowTempLimit']`, initially `None`: the active low limit. -/
  pubLowLimit : Option ℚ
  /-- `publish_data['highTempLimit']`, initially `None`: the active high limit. -/
  pubHighLimit : Option ℚ
  /-- `publish_data['tempUnit'] == 'F'` (the unit is Fahrenheit). -/
  pubTempUnitF : Bool
  /-- `publish_data['heatOn']`. -/
  pubHeatOn : Bool
  /-- `publish_data['coolOn']`. -/
  pubCoolOn : Bool
  /-- the commanded state of `heat_relay_pin` (line 28), initially off. -/
  heatRelay : Bool
  /-- the commanded state of `cool_relay_pin` (line 29), initially off. -/
  coolRelay : Bool
deriving Repr, DecidableEq

/-- The initial values of the globals (lines 41–54 of the source):
note `base_low_temp` and `base_high_temp` start as the number `0`, not
`None`, while `publish_data`'s limits start as `None`. -/
def initialState : SysState :=
  { previousTemp := 0
    configDone := false
    minimumOffMins := some 3
    scheduleStartTime := none
    baseLowTemp := some 0
    baseHighTemp := some 0
    coolingOffCount := 0
    coolingState := CoolingState.off
    scheduleAdjustDays := []
    scheduleAdjustTemp := []
    scheduleAdjustment := 0
    pubCurrentTemp := 0
    pubLowLimit := none
    pubHighLimit := none
    pubTempUnitF := true
    pubHeatOn := false
    pubCoolOn := false
    heatRelay := false
    coolRelay := false }

/-- Python truthiness of an optional number: `None` and `0` are falsy,
every other number is truthy.  This is the test `if base_low_temp and ...`
performs on the limit globals. -/
def truthyQ : Option ℚ → Bool
  | Option.none => false
  | Option.some v => decide (v ≠ 0)

/-- The result of a `startTimeUTC` field as the source consumes it:
`config.get('startTimeUTC')` may find the key missing (`None` is passed
to `datetime.fromisoformat`, which raises), the string may be malformed
(`fromisoformat` raises), or it parses to a timestamp. -/
inductive TimeField
  | missing
  | malformed
  | valid (t : ℤ)
deriving Repr, DecidableEq

/-- One entry of the `tempChanges` array as the source consumes it:
`change['daysLater']` / `change['tempChange']` raise KeyError when the
key is absent, modelled by `none`. -/
structure RawEntry where
  daysLater : Option ℤ
  tempChange : Option ℚ
deriving Repr, DecidableEq

/-- A `/config` message after `json.loads` succeeded, with each field as
the source reads it via `config.get(...)` (absent key ↦ `none` / falsy). -/
structure ConfigMsg where
  startTimeUTC : TimeField
  lowTempLimit : Option ℚ
  highTempLimit : Option ℚ
  minimumOffMins : Option ℤ
  celsius : Bool
  tempChanges : Option (List RawEntry)
deriving Repr, DecidableEq

/-- The loop body of `parse_schedule` (lines 61–64): for each entry,
look up `daysLater` and append it to the days list, then look up
`tempChange` and append it to the temps list.  A missing key raises at
the point of lookup, keeping the appends already performed; the `Bool`
reports whether the loop ran to completion. -/
def parseScheduleLoop : List RawEntry → List ℤ → List ℚ → List ℤ × List ℚ × Bool
  | [], ds, ts => (ds, ts, true)
  | e :: rest, ds, ts =>
    match e.daysLater with
    | Option.none => (ds, ts, false)
    | Option.some d =>
      match e.tempChange with
      | Option.none => (ds ++ [d], ts, false)
      | Option.some t => parseScheduleLoop rest (ds ++ [d]) (ts ++ [t])

/-- `parse_schedule(schedule)` (lines 57–64): only when `schedule` is
truthy (a non-empty list; `None` and `[]` are falsy) are the two global
lists cleared and rebuilt by the loop. -/
def parseScheduleStep (s : SysState) (sched : Option (List RawEntry)) :
    SysState × Bool :=
  match sched with
  | Option.some (e :: rest) =>
    let r := parseScheduleLoop (e :: rest) [] []
    ({ s with scheduleAdjustDays := r.1, scheduleAdjustTemp := r.2.1 }, r.2.2)
  | Option.some [] => (s, true)
  | Option.none => (s, true)

/-- `handle_incoming_message` on the `/config` topic (lines 88–104).
`msg = none` models a `json.loads` failure (nothing assigned).  With a
parsed dict, `datetime.fromisoformat(config.get('startTimeUTC'))` raises
on a missing or malformed start time *before* any global is assigned;
once it succeeds, the start time, limits, minimum-off-minutes and unit
are assigned unconditionally, then `parse_schedule` runs, and only if it
completes is `config_done` set to `True`.  All exceptions are caught at
line 102, so the state reached at the raise point is what remains. -/
def handleConfigMessage (s : SysState) (msg : Option ConfigMsg) : SysState :=
  match msg with
  | Option.none => s
  | Option.some m =>
    match m.startTimeUTC with
    | TimeField.missing => s
    | TimeField.malformed => s
    | TimeField.valid t =>
      let s1 := { s with
        scheduleStartTime := some t
        baseLowTemp := m.lowTempLimit
        baseHighTemp := m.highTempLimit
        minimumOffMins := m.minimumOffMins
        pubTempUnitF := !m.celsius }
      let r := parseScheduleStep s1 m.tempChanges
      if r.2 then { r.1 with configDone := true } else r.1

/-- The scan loop of `determine_temp_adjustment` (lines 70–72):
`for i in range(len(schedule_adjust_days)): if schedule_adjust_days[i]
<= days_in: adjustment = schedule_adjust_temp[i]`.  Walking the days
list past the end of the temps list is the source's IndexError
(`none`); extra temps entries are ignored, as `range(len(days))` never
reaches them. -/
def scanAdjust : List ℤ → List ℚ → ℤ → ℚ → Option ℚ
  | [], _, _, acc => some acc
  | _ :: _, [], _, _ => none
  | d :: ds, t :: ts, daysIn, acc =>
    scanAdjust ds ts daysIn (if d ≤ daysIn then t else acc)

/-- `determine_temp_adjustment(days_in)` (lines 67–75): compute the
adjustment by the in-order scan, store it in `schedule_adjustment`, then
set `publish_data['lowTempLimit'] = base_low_temp + adjustment` and
`publish_data['highTempLimit'] = base_high_temp + adjustment`.  When a
base limit is `None`, the `None + adjustment` addition raises TypeError
at that assignment, keeping the assignments already made. -/
def determineTempAdjustment (s : SysState) (daysIn : ℤ) : SysState × Bool :=
  match scanAdjust s.scheduleAdjustDays s.scheduleAdjustTemp daysIn 0 with
  | Option.none => (s, false)
  | Option.some adj =>
    let s1 := { s with scheduleAdjustment := adj }
    match s1.baseLowTemp with
    | Option.none => (s1, false)
    | Option.some bl =>
      let s2 := { s1 with pubLowLimit := some (bl + adj) }
      match s2.baseHighTemp with
      | Option.none => (s2, false)
      | Option.some bh => ({ s2 with pubHighLimit := some (bh + adj) }, true)

/-- The heating decision (lines 171–175): `if base_low_temp and
((current_temp + previous_temp) / 2) < publish_data["lowTempLimit"]:`
turn the heat relay on, else off.  `and` short-circuits on a falsy
`base_low_temp`; with a truthy one, comparing against a `None` limit
raises TypeError, leaving the relay as it was. -/
def heatStep (s : SysState) (dv : ℚ) : SysState × Bool :=
  if truthyQ s.baseLowTemp then
    match s.pubLowLimit with
    | Option.none => (s, false)
    | Option.some ll => ({ s with heatRelay := decide (dv < ll) }, true)
  else ({ s with heatRelay := false }, true)

/-- The `else` branch of the cooling decision (lines 183–194): relay
off, then `on → waiting` (counter reset), or in `waiting` increment the
counter and leave `waiting` for `off` once `cooling_off_count >=
minimum_off_mins - 1` (a `None` `minimum_off_mins` raises TypeError
after the increment). -/
def coolOffBranch (s : SysState) : SysState × Bool :=
  let s1 := { s with coolRelay := false }
  match s1.coolingState with
  | CoolingState.on =>
    ({ s1 with coolingState := CoolingState.waiting, coolingOffCount := 0 }, true)
  | CoolingState.waiting =>
    let s2 := { s1 with coolingOffCount := s1.coolingOffCount + 1 }
    match s2.minimumOffMins with
    | Option.none => (s2, false)
    | Option.some m =>
      if s2.coolingOffCount ≥ m - 1 then
        ({ s2 with coolingState := CoolingState.off }, true)
      else (s2, true)
  | CoolingState.off => (s1, true)

/-- The cooling decision (lines 178–194): `if base_high_temp and
((current_temp + previous_temp) / 2) > publish_data['highTempLimit']
and cooling_state != 'waiting':` relay on and state `on`; otherwise the
off branch.  The comparison against a `None` high limit raises
TypeError (only reached when `base_high_temp` is truthy), leaving
everything as it was. -/
def coolStep (s : SysState) (dv : ℚ) : SysState × Bool :=
  if truthyQ s.baseHighTemp then
    match s.pubHighLimit with
    | Option.none => (s, false)
    | Option.some hl =>
      if dv > hl ∧ s.coolingState ≠ CoolingState.waiting then
        ({ s with coolRelay := true, coolingState := CoolingState.on }, true)
      else coolOffBranch s
  else coolOffBranch s

/-- `F = C * 1.8 + 32` (line 151), applied when the configured unit is
Fahrenheit. -/
def convertTemp (isF : Bool) (raw : ℚ) : ℚ :=
  if isF then raw * 1.8 + 32 else raw

/-- The outcome of one decision cycle: the resulting global state,
whether the `try` body ran to completion (`False` means an exception was
caught at line 200 and reported, skipping the remaining statements —
including the status publish), whether the negative-`days_in` error of
line 165 was published, and the smoothed decision value
`(current_temp + previous_temp) / 2` that the threshold comparisons
use. -/
structure CycleOut where
  state : SysState
  completed : Bool
  negDaysError : Bool
  dv : ℚ
deriving Repr, DecidableEq

/-- Lines 153–157: record `currentTemp` in `publish_data` and seed
`previous_temp` with the current reading when it is still `0.0`. -/
def seedPhase (s0 : SysState) (cur : ℚ) : SysState :=
  let s1 := { s0 with pubCurrentTemp := cur }
  if s1.previousTemp = 0 then { s1 with previousTemp := cur } else s1

/-- Lines 161–167: on a negative `days_in` only the error publish
happens (the adjustment is skipped); otherwise
`determine_temp_adjustment` runs. -/
def adjPhase (s : SysState) (daysIn : ℤ) : SysState × Bool :=
  if daysIn < 0 then (s, true) else determineTempAdjustment s daysIn

/-- Lines 171–194: the heating decision followed — when it did not
raise — by the cooling decision. -/
def decisionPhase (s : SysState) (dv : ℚ) : SysState × Bool :=
  let rh := heatStep s dv
  if rh.2 = false then (rh.1, false) else coolStep rh.1 dv

/-- One iteration of the temperature loop body (lines 146–199), with the
sampler reading `raw` (native Celsius) and the computed
`days_in = (now - schedule_start_time).days` passed in as `daysIn`:
convert the unit, record `currentTemp`, seed `previous_temp` when it is
`0.0` (line 156), publish the negative-days error or run the schedule
adjustment, run the heating and cooling decisions, then set
`previous_temp = current_temp` and mirror the relays into
`publish_data` for the status publish.  An exception at any modelled
raise point keeps the mutations made so far and abandons the rest. -/
def runCycle (s0 : SysState) (raw : ℚ) (daysIn : ℤ) : CycleOut :=
  let cur := convertTemp s0.pubTempUnitF raw
  let s2 := seedPhase s0 cur
  let ra := adjPhase s2 daysIn
  let dv := (cur + s2.previousTemp) / 2
  if ra.2 = false then ⟨ra.1, false, decide (daysIn < 0), dv⟩ else
  let rd := decisionPhase ra.1 dv
  if rd.2 = false then ⟨rd.1, false, decide (daysIn < 0), dv⟩ else
  ⟨{ rd.1 with
      previousTemp := cur
      pubHeatOn := rd.1.heatRelay
      pubCoolOn := rd.1.coolRelay }, true, decide (daysIn < 0), dv⟩

/-! ## The cooldown state machine in isolation

The cooling block of `main` (lines 177–194) is driven each cycle by the
demand condition `base_high_temp and decision_value >
publish_data['highTempLimit']`.  To study the state machine on its own
we run `coolStep` on a fixture whose high limit is truthy (`1`) and
whose active high limit is `0`, feeding decision value `1` for a
demanding cycle and `-1` for a non-demanding one. -/

/-- A fixture state putting the cooling block of `main` in a given
machine state: truthy `base_high_temp`, active high limit `0`. -/
def coolFixture (m : ℤ) (st : CoolingState) (c : ℤ) : SysState :=
  { initialState with
      baseHighTemp := some 1
      pubHighLimit := some 0
      minimumOffMins := some m
      coolingState := st
      coolingOffCount := c }

/-- One step of the cooldown state machine with demand `d` and cooldown
parameter `m`, as executed by the cooling block of `main`: returns the
commanded relay, the next state and the next counter. -/
def coolMachine (m : ℤ) (d : Bool) (p : CoolingState × ℤ) :
    Bool × CoolingState × ℤ :=
  let r := (coolStep (coolFixture m p.1 p.2) (if d then 1 else -1)).1
  (r.coolRelay, r.coolingState, r.coolingOffCount)

/-- Demand trace of claim C1: demand on the first cycle only. -/
def demandOnce (i : ℕ) : Bool := decide (i = 0)

/-- The machine state *before* cycle `i`, starting from the initial
`('off', 0)` and running the cooling block on the `demandOnce` trace
with cooldown parameter `m`. -/
def coolTrajC1 (m : ℤ) : ℕ → CoolingState × ℤ
  | 0 => (CoolingState.off, 0)
  | i + 1 => (coolMachine m (demandOnce i) (coolTrajC1 m i)).2

/-- The relay commanded during cycle `i` of the `demandOnce` run. -/
def coolRelayC1 (m : ℤ) (i : ℕ) : Bool :=
  (coolMachine m (demandOnce i) (coolTrajC1 m i)).1

/-! ## Spec-side description of the schedule scan -/

/-- Modelled from the spec's words for comparison with the source scan:
"the result is the `tempChange` of the last entry in list (insertion)
order whose `daysLater <= daysElapsed`, and 0 when no entry
qualifies". -/
def lastQualifyingAdjustment (offsets : List (ℤ × ℚ)) (daysElapsed : ℤ) : ℚ :=
  ((offsets.filter (fun p => decide (p.1 ≤ daysElapsed))).getLast?.map Prod.snd).getD 0

/-- The scan loop is the overwrite fold over the zipped offsets. -/
theorem scanAdjust_eq_foldl (l : List (ℤ × ℚ)) (d : ℤ) (acc : ℚ) :
    scanAdjust (l.map Prod.fst) (l.map Prod.snd) d acc =
      some (l.foldl (fun a p => if p.1 ≤ d then p.2 else a) acc) := by
  induction l generalizing acc with
  | nil => rfl
  | cons p rest ih => simp [scanAdjust, ih]

/-- The overwrite fold returns the last list-order qualifying entry. -/
theorem foldl_eq_lastQualifying (l : List (ℤ × ℚ)) (d : ℤ) (acc : ℚ) :
    l.foldl (fun a p => if p.1 ≤ d then p.2 else a) acc =
      ((l.filter (fun p => decide (p.1 ≤ d))).getLast?.map Prod.snd).getD acc := by
  induction l using List.reverseRecOn with
  | nil => rfl
  | append_singleton xs p ih =>
    by_cases hp : p.1 ≤ d <;>
      simp [List.foldl_append, List.filter_append, hp, ih, List.getLast?_concat]

/-- C3: for every list of schedule offsets and every `daysElapsed`, the
schedule scan of `determine_temp_adjustment` (lines 67–75) yields the
`tempChange` of the last entry in list (insertion) order whose
`daysLater <= daysElapsed`, and `0` when no entry qualifies; stored in
`schedule_adjustment` by `determine_temp_adjustment`; and on the
unsorted list `[(10, A), (0, B)]` with `daysElapsed = 20` the result is
`B`, the list-order-last qualifying entry, not the greatest-`daysLater`
one. -/
theorem C3_schedule_last_qualifying :
    (∀ (offsets : List (ℤ × ℚ)) (d : ℤ),
       scanAdjust (offsets.map Prod.fst) (offsets.map Prod.snd) d 0 =
         some (lastQualifyingAdjustment offsets d)) ∧
    (∀ (s : SysState) (d : ℤ) (offsets : List (ℤ × ℚ)),
       s.scheduleAdjustDays = offsets.map Prod.fst →
       s.scheduleAdjustTemp = offsets.map Prod.snd →
       (determineTempAdjustment s d).1.scheduleAdjustment =
         lastQualifyingAdjustment offsets d) ∧
    (∀ A B : ℚ, scanAdjust [10, 0] [A, B] 20 0 = some B) := by
  have hscan : ∀ (offsets : List (ℤ × ℚ)) (d : ℤ),
      scanAdjust (offsets.map Prod.fst) (offsets.map Prod.snd) d 0 =
        some (lastQualifyingAdjustment offsets d) := by
    intro offsets d
    rw [scanAdjust_eq_foldl, foldl_eq_lastQualifying]
    rfl
  refine ⟨hscan, ?_, ?_⟩
  · intro s d offsets h1 h2
    unfold determineTempAdjustment
    rw [h1, h2, hscan]
    cases hb : s.baseLowTemp <;> cases hc : s.baseHighTemp <;> simp [hb, hc]
  · intro A B
    norm_num [scanAdjust]

/-- Witness for C3's second conjunct at the unsorted pinned list. -/
def c3WitState : SysState :=
  { initialState with scheduleAdjustDays := [10, 0], scheduleAdjustTemp := [7, 9] }

/-- C3 instantiated: with stored lists `[10, 0]` / `[7, 9]` (the spec's
pinned unsorted example) and 20 days elapsed, `determine_temp_adjustment`
stores the list-order-last qualifying change. -/
theorem C3_schedule_last_qualifying_witness :
    (determineTempAdjustment c3WitState 20).1.scheduleAdjustment =
      lastQualifyingAdjustment [(10, 7), (0, 9)] 20 :=
  C3_schedule_last_qualifying.2.1 c3WitState 20 [(10, 7), (0, 9)] rfl rfl

/-! ## Configuration-ingestion lemmas -/

/-- Whether the `try` block of `handle_incoming_message` runs to its
last statement, i.e. whether `config_done = True` is reached: JSON must
parse, the start time must parse, and the schedule loop must not hit a
missing key. -/
def ingestOk : Option ConfigMsg → Bool
  | Option.none => false
  | Option.some m =>
    match m.startTimeUTC with
    | TimeField.valid _ =>
      match m.tempChanges with
      | Option.some (e :: rest) => (parseScheduleLoop (e :: rest) [] []).2.2
      | _ => true
    | _ => false

/-- `parse_schedule` only ever touches the two schedule lists. -/
theorem parseScheduleStep_frame (s : SysState) (sched : Option (List RawEntry)) :
    (parseScheduleStep s sched).1.previousTemp = s.previousTemp ∧
    (parseScheduleStep s sched).1.configDone = s.configDone ∧
    (parseScheduleStep s sched).1.minimumOffMins = s.minimumOffMins ∧
    (parseScheduleStep s sched).1.scheduleStartTime = s.scheduleStartTime ∧
    (parseScheduleStep s sched).1.baseLowTemp = s.baseLowTemp ∧
    (parseScheduleStep s sched).1.baseHighTemp = s.baseHighTemp ∧
    (parseScheduleStep s sched).1.coolingOffCount = s.coolingOffCount ∧
    (parseScheduleStep s sched).1.coolingState = s.coolingState ∧
    (parseScheduleStep s sched).1.scheduleAdjustment = s.scheduleAdjustment ∧
    (parseScheduleStep s sched).1.pubCurrentTemp = s.pubCurrentTemp ∧
    (parseScheduleStep s sched).1.pubLowLimit = s.pubLowLimit ∧
    (parseScheduleStep s sched).1.pubHighLimit = s.pubHighLimit ∧
    (parseScheduleStep s sched).1.pubTempUnitF = s.pubTempUnitF ∧
    (parseScheduleStep s sched).1.heatRelay = s.heatRelay ∧
    (parseScheduleStep s sched).1.coolRelay = s.coolRelay := by
  rcases sched with _ | (_ | ⟨e, rest⟩) <;> simp [parseScheduleStep]

/-- Config ingestion never touches the per-cycle control state: the
smoothing memory, the cooling state machine, the relays, the active
limits, or the stored schedule adjustment. -/
theorem handleConfig_frame (s : SysState) (msg : Option ConfigMsg) :
    (handleConfigMessage s msg).previousTemp = s.previousTemp ∧
    (handleConfigMessage s msg).coolingOffCount = s.coolingOffCount ∧
    (handleConfigMessage s msg).coolingState = s.coolingState ∧
    (handleConfigMessage s msg).scheduleAdjustment = s.scheduleAdjustment ∧
    (handleConfigMessage s msg).pubCurrentTemp = s.pubCurrentTemp ∧
    (handleConfigMessage s msg).pubLowLimit = s.pubLowLimit ∧
    (handleConfigMessage s msg).pubHighLimit = s.pubHighLimit ∧
    (handleConfigMessage s msg).heatRelay = s.heatRelay ∧
    (handleConfigMessage s msg).coolRelay = s.coolRelay := by
  rcases msg with _ | m
  · simp [handleConfigMessage]
  · rcases hm : m.startTimeUTC with _ | _ | t <;> simp only [handleConfigMessage, hm]
    · simp
    · simp
    · have hf := parseScheduleStep_frame
        { s with
          scheduleStartTime := some t
          baseLowTemp := m.lowTempLimit
          baseHighTemp := m.highTempLimit
          minimumOffMins := m.minimumOffMins
          pubTempUnitF := !m.celsius } m.tempChanges
      split <;> simp_all

/-- C4 (amended): a failure of JSON parsing or of start-time parsing —
in particular a missing `startTimeUTC` — leaves every field of the
previously installed configuration exactly as it was, and
`config_done` becomes true exactly when a full ingestion succeeds (so
it first becomes true only after the first successful ingestion, and
is never reset).  However, a valid start time is installed even when
the rest of the message later fails (last conjunct): failure inside
`parse_schedule` is NOT atomic, as the counterexample shows. -/
theorem C4_config_failure_amended :
    (∀ s : SysState, handleConfigMessage s none = s) ∧
    (∀ (s : SysState) (m : ConfigMsg), m.startTimeUTC = TimeField.missing →
       handleConfigMessage s (some m) = s) ∧
    (∀ (s : SysState) (m : ConfigMsg), m.startTimeUTC = TimeField.malformed →
       handleConfigMessage s (some m) = s) ∧
    (∀ (s : SysState) (msg : Option ConfigMsg),
       (handleConfigMessage s msg).configDone = (s.configDone || ingestOk msg)) ∧
    (∀ (s : SysState) (m : ConfigMsg) (t : ℤ), m.startTimeUTC = TimeField.valid t →
       (handleConfigMessage s (some m)).scheduleStartTime = some t) := by
  refine ⟨fun s => rfl, ?_, ?_, ?_, ?_⟩
  · intro s m hm; simp [handleConfigMessage, hm]
  · intro s m hm; simp [handleConfigMessage, hm]
  · intro s msg
    rcases msg with _ | m
    · simp [handleConfigMessage, ingestOk]
    · rcases hm : m.startTimeUTC with _ | _ | t <;>
        simp only [handleConfigMessage, ingestOk, hm]
      · simp
      · simp
      · rcases htc : m.tempChanges with _ | (_ | ⟨e, rest⟩) <;>
          simp only [parseScheduleStep, htc] <;> split <;> simp_all
  · intro s m t hm
    simp only [handleConfigMessage, hm]
    have hf := parseScheduleStep_frame
      { s with
        scheduleStartTime := some t
        baseLowTemp := m.lowTempLimit
        baseHighTemp := m.highTempLimit
        minimumOffMins := m.minimumOffMins
        pubTempUnitF := !m.celsius } m.tempChanges
    split <;> simp_all

/-- A first, fully valid configuration message. -/
def c4FirstMsg : ConfigMsg :=
  ⟨TimeField.valid 100, some 60, some 80, some 5, true, some [⟨some 2, some 1⟩]⟩

/-- A replacement message whose single schedule entry is missing its
`tempChange` key, so `parse_schedule` raises KeyError mid-loop. -/
def c4BadMsg : ConfigMsg :=
  ⟨TimeField.valid 200, some 61, some 81, some 6, false, some [⟨some 7, none⟩]⟩

/-- The state after the first successful ingestion. -/
def c4Installed : SysState := handleConfigMessage initialState (some c4FirstMsg)

/-- The state after the failed re-ingestion of `c4BadMsg`. -/
def c4AfterBad : SysState := handleConfigMessage c4Installed (some c4BadMsg)

/-- C4 counterexample: ingesting a message with a malformed
schedule-offset entry (a listed error case of the claim) does NOT leave
the previously installed Config as it was: the start time, both limits,
the minimum-off-minutes and the unit are all overwritten with the new
message's values, and the offsets list is left cleared and half rebuilt
(days `[7]` against temps `[]`), even though ingestion failed
(`ingestOk = false`) — a partially applied Config is observable. -/
theorem C4_partial_config_counterexample :
    c4Installed.configDone = true ∧
    c4Installed.scheduleStartTime = some 100 ∧
    c4Installed.baseLowTemp = some 60 ∧
    c4Installed.scheduleAdjustDays = [2] ∧
    c4Installed.scheduleAdjustTemp = [1] ∧
    ingestOk (some c4BadMsg) = false ∧
    c4AfterBad.scheduleStartTime = some 200 ∧
    c4AfterBad.baseLowTemp = some 61 ∧
    c4AfterBad.baseHighTemp = some 81 ∧
    c4AfterBad.minimumOffMins = some 6 ∧
    c4AfterBad.pubTempUnitF = true ∧
    c4AfterBad.scheduleAdjustDays = [7] ∧
    c4AfterBad.scheduleAdjustTemp = [] := by decide

/-- A message whose `startTimeUTC` key is missing. -/
def c4MissingMsg : ConfigMsg := ⟨TimeField.missing, some 1, some 2, some 3, true, none⟩

/-- C4 witness: a missing `startTimeUTC` leaves the installed Config
untouched. -/
theorem C4_config_failure_amended_witness :
    handleConfigMessage c4Installed (some c4MissingMsg) = c4Installed :=
  C4_config_failure_amended.2.1 c4Installed c4MissingMsg rfl

/-- On a list of well-formed entries (both keys present), the
`parse_schedule` loop appends every entry's fields and completes. -/
theorem parseScheduleLoop_wellFormed (l : List RawEntry) (ds : List ℤ) (ts : List ℚ)
    (h : ∀ e ∈ l, e.daysLater.isSome ∧ e.tempChange.isSome) :
    parseScheduleLoop l ds ts =
      (ds ++ l.filterMap RawEntry.daysLater,
       ts ++ l.filterMap RawEntry.tempChange, true) := by
  induction l generalizing ds ts with
  | nil => simp [parseScheduleLoop]
  | cons e rest ih =>
    obtain ⟨hd, ht⟩ := h e (List.mem_cons_self e rest)
    obtain ⟨d, hd⟩ := Option.isSome_iff_exists.mp hd
    obtain ⟨t, ht⟩ := Option.isSome_iff_exists.mp ht
    have hrest : ∀ x ∈ rest, x.daysLater.isSome ∧ x.tempChange.isSome :=
      fun x hx => h x (List.mem_cons_of_mem e hx)
    simp [parseScheduleLoop, hd, ht, ih _ _ hrest, List.filterMap_cons]

/-- C9 (amended): a successful re-ingestion whose `tempChanges` list is
non-empty (and well formed) discards the installed schedule-offsets
lists and rebuilds them from the new message alone — no offset of the
previous Config survives.  But when the new `tempChanges` list is empty
(or the key is absent), `parse_schedule`'s `if schedule:` truthiness
guard skips the rebuild and the previously installed offsets survive the
otherwise successful replacement. -/
theorem C9_schedule_replacement_amended :
    (∀ (s : SysState) (m : ConfigMsg) (t : ℤ) (e : RawEntry) (rest : List RawEntry),
       m.startTimeUTC = TimeField.valid t →
       m.tempChanges = some (e :: rest) →
       (∀ x ∈ e :: rest, x.daysLater.isSome ∧ x.tempChange.isSome) →
       (handleConfigMessage s (some m)).scheduleAdjustDays =
         (e :: rest).filterMap RawEntry.daysLater ∧
       (handleConfigMessage s (some m)).scheduleAdjustTemp =
         (e :: rest).filterMap RawEntry.tempChange ∧
       (handleConfigMessage s (some m)).configDone = true) ∧
    (∀ (s : SysState) (m : ConfigMsg) (t : ℤ),
       m.startTimeUTC = TimeField.valid t →
       (m.tempChanges = some [] ∨ m.tempChanges = none) →
       (handleConfigMessage s (some m)).scheduleAdjustDays = s.scheduleAdjustDays ∧
       (handleConfigMessage s (some m)).scheduleAdjustTemp = s.scheduleAdjustTemp ∧
       (handleConfigMessage s (some m)).configDone = true) := by
  constructor
  · intro s m t e rest hm htc hwf
    simp [handleConfigMessage, hm, parseScheduleStep, htc,
      parseScheduleLoop_wellFormed (e :: rest) [] [] hwf]
  · intro s m t hm htc
    rcases htc with htc | htc <;> simp [handleConfigMessage, hm, parseScheduleStep, htc]

/-- A successful replacement message with an empty `tempChanges` list. -/
def c9EmptyMsg : ConfigMsg := ⟨TimeField.valid 300, some 62, some 82, some 7, true, some []⟩

/-- The state after re-ingesting the empty-schedule message over the
installed `c4FirstMsg` configuration. -/
def c9AfterEmpty : SysState := handleConfigMessage c4Installed (some c9EmptyMsg)

/-- C9 counterexample: re-ingesting a fully valid message whose
`tempChanges` list is empty succeeds (the rest of the Config — start
time, limits, cooldown, unit — is replaced and `config_done` holds),
yet the schedule-offsets lists still hold the offsets `([2], [1])` of
the previously installed Config instead of the claimed empty rebuild. -/
theorem C9_empty_schedule_counterexample :
    ingestOk (some c9EmptyMsg) = true ∧
    c9AfterEmpty.configDone = true ∧
    c9AfterEmpty.scheduleStartTime = some 300 ∧
    c9AfterEmpty.baseLowTemp = some 62 ∧
    c9AfterEmpty.scheduleAdjustDays = [2] ∧
    c9AfterEmpty.scheduleAdjustTemp = [1] := by decide

/-- A second valid message with a different, non-empty schedule. -/
def c9SecondMsg : ConfigMsg :=
  ⟨TimeField.valid 400, some 63, some 83, some 8, true, some [⟨some 9, some 4⟩]⟩

/-- C9 witness: re-ingesting a non-empty well-formed schedule rebuilds
the offsets lists from the new message alone. -/
theorem C9_schedule_replacement_amended_witness :
    (handleConfigMessage c4Installed (some c9SecondMsg)).scheduleAdjustDays =
      ([⟨some 9, some 4⟩] : List RawEntry).filterMap RawEntry.daysLater ∧
    (handleConfigMessage c4Installed (some c9SecondMsg)).scheduleAdjustTemp =
      ([⟨some 9, some 4⟩] : List RawEntry).filterMap RawEntry.tempChange ∧
    (handleConfigMessage c4Installed (some c9SecondMsg)).configDone = true :=
  C9_schedule_replacement_amended.1 c4Installed c9SecondMsg 400 ⟨some 9, some 4⟩ []
    rfl rfl (by decide)

/-! ## Cooling-block lemmas -/

/-- In `waiting`, with a populated active high limit (so the demand
comparison cannot raise) and a present `minimum_off_mins = M`, the
cooling block holds the relay off, increments the counter, and leaves
`waiting` for `off` exactly when the incremented counter reaches
`M - 1` — whatever the demand is. -/
theorem coolStep_waiting_char (s : SysState) (dv : ℚ) (M : ℤ)
    (hw : s.coolingState = CoolingState.waiting)
    (hM : s.minimumOffMins = some M)
    (hh : s.pubHighLimit.isSome) :
    (coolStep s dv).2 = true ∧
    (coolStep s dv).1.coolRelay = false ∧
    (coolStep s dv).1.coolingOffCount = s.coolingOffCount + 1 ∧
    ((coolStep s dv).1.coolingState = CoolingState.off ↔
      s.coolingOffCount + 1 ≥ M - 1) := by
  obtain ⟨hl, hhl⟩ := Option.isSome_iff_exists.mp hh
  by_cases hc : s.coolingOffCount + 1 ≥ M - 1 <;>
    cases htr : truthyQ s.baseHighTemp <;>
      simp [coolStep, coolOffBranch, htr, hhl, hw, hM, hc]

/-- The heating decision only ever writes the heat relay. -/
theorem heatStep_frame (s : SysState) (dv : ℚ) :
    (heatStep s dv).1.previousTemp = s.previousTemp ∧
    (heatStep s dv).1.minimumOffMins = s.minimumOffMins ∧
    (heatStep s dv).1.baseLowTemp = s.baseLowTemp ∧
    (heatStep s dv).1.baseHighTemp = s.baseHighTemp ∧
    (heatStep s dv).1.coolingOffCount = s.coolingOffCount ∧
    (heatStep s dv).1.coolingState = s.coolingState ∧
    (heatStep s dv).1.scheduleAdjustDays = s.scheduleAdjustDays ∧
    (heatStep s dv).1.scheduleAdjustTemp = s.scheduleAdjustTemp ∧
    (heatStep s dv).1.scheduleAdjustment = s.scheduleAdjustment ∧
    (heatStep s dv).1.pubLowLimit = s.pubLowLimit ∧
    (heatStep s dv).1.pubHighLimit = s.pubHighLimit ∧
    (heatStep s dv).1.pubTempUnitF = s.pubTempUnitF ∧
    (heatStep s dv).1.coolRelay = s.coolRelay := by
  unfold heatStep
  cases htr : truthyQ s.baseLowTemp <;> rcases hll : s.pubLowLimit with _ | ll <;>
    simp_all

/-- The cooling decision only ever writes the cool relay, the cooling
state and the cooldown counter. -/
theorem coolStep_frame (s : SysState) (dv : ℚ) :
    (coolStep s dv).1.previousTemp = s.previousTemp ∧
    (coolStep s dv).1.minimumOffMins = s.minimumOffMins ∧
    (coolStep s dv).1.baseLowTemp = s.baseLowTemp ∧
    (coolStep s dv).1.baseHighTemp = s.baseHighTemp ∧
    (coolStep s dv).1.scheduleAdjustDays = s.scheduleAdjustDays ∧
    (coolStep s dv).1.scheduleAdjustTemp = s.scheduleAdjustTemp ∧
    (coolStep s dv).1.scheduleAdjustment = s.scheduleAdjustment ∧
    (coolStep s dv).1.pubLowLimit = s.pubLowLimit ∧
    (coolStep s dv).1.pubHighLimit = s.pubHighLimit ∧
    (coolStep s dv).1.pubTempUnitF = s.pubTempUnitF ∧
    (coolStep s dv).1.heatRelay = s.heatRelay := by
  unfold coolStep coolOffBranch
  cases htr : truthyQ s.baseHighTemp <;> rcases hhl : s.pubHighLimit with _ | hl <;>
    rcases hcs : s.coolingState with _ | _ | _ <;>
      rcases hm : s.minimumOffMins with _ | m <;>
        simp_all <;> try (split_ifs <;> simp_all)

/-- The decision phase (heating then cooling) writes only the two
relays, the cooling state and the cooldown counter. -/
theorem decisionPhase_frame (s : SysState) (dv : ℚ) :
    (decisionPhase s dv).1.previousTemp = s.previousTemp ∧
    (decisionPhase s dv).1.minimumOffMins = s.minimumOffMins ∧
    (decisionPhase s dv).1.baseLowTemp = s.baseLowTemp ∧
    (decisionPhase s dv).1.baseHighTemp = s.baseHighTemp ∧
    (decisionPhase s dv).1.scheduleAdjustDays = s.scheduleAdjustDays ∧
    (decisionPhase s dv).1.scheduleAdjustTemp = s.scheduleAdjustTemp ∧
    (decisionPhase s dv).1.scheduleAdjustment = s.scheduleAdjustment ∧
    (decisionPhase s dv).1.pubLowLimit = s.pubLowLimit ∧
    (decisionPhase s dv).1.pubHighLimit = s.pubHighLimit ∧
    (decisionPhase s dv).1.pubTempUnitF = s.pubTempUnitF := by
  have hh := heatStep_frame s dv
  have hc := coolStep_frame (heatStep s dv).1 dv
  simp only [decisionPhase]
  split <;> simp_all

/-- The adjustment phase writes only `schedule_adjustment` and the two
published active limits. -/
theorem adjPhase_frame (s : SysState) (daysIn : ℤ) :
    (adjPhase s daysIn).1.previousTemp = s.previousTemp ∧
    (adjPhase s daysIn).1.minimumOffMins = s.minimumOffMins ∧
    (adjPhase s daysIn).1.baseLowTemp = s.baseLowTemp ∧
    (adjPhase s daysIn).1.baseHighTemp = s.baseHighTemp ∧
    (adjPhase s daysIn).1.coolingOffCount = s.coolingOffCount ∧
    (adjPhase s daysIn).1.coolingState = s.coolingState ∧
    (adjPhase s daysIn).1.scheduleAdjustDays = s.scheduleAdjustDays ∧
    (adjPhase s daysIn).1.scheduleAdjustTemp = s.scheduleAdjustTemp ∧
    (adjPhase s daysIn).1.pubTempUnitF = s.pubTempUnitF ∧
    (adjPhase s daysIn).1.heatRelay = s.heatRelay ∧
    (adjPhase s daysIn).1.coolRelay = s.coolRelay := by
  unfold adjPhase determineTempAdjustment
  split_ifs
  · simp
  · rcases scanAdjust s.scheduleAdjustDays s.scheduleAdjustTemp daysIn 0 with _ | adj <;>
      rcases s.baseLowTemp with _ | bl <;> rcases s.baseHighTemp with _ | bh <;> simp

/-- The seed phase writes only `previous_temp` and the published
current temperature. -/
theorem seedPhase_frame (s : SysState) (cur : ℚ) :
    (seedPhase s cur).minimumOffMins = s.minimumOffMins ∧
    (seedPhase s cur).baseLowTemp = s.baseLowTemp ∧
    (seedPhase s cur).baseHighTemp = s.baseHighTemp ∧
    (seedPhase s cur).coolingOffCount = s.coolingOffCount ∧
    (seedPhase s cur).coolingState = s.coolingState ∧
    (seedPhase s cur).scheduleAdjustDays = s.scheduleAdjustDays ∧
    (seedPhase s cur).scheduleAdjustTemp = s.scheduleAdjustTemp ∧
    (seedPhase s cur).scheduleAdjustment = s.scheduleAdjustment ∧
    (seedPhase s cur).pubLowLimit = s.pubLowLimit ∧
    (seedPhase s cur).pubHighLimit = s.pubHighLimit ∧
    (seedPhase s cur).pubTempUnitF = s.pubTempUnitF ∧
    (seedPhase s cur).heatRelay = s.heatRelay ∧
    (seedPhase s cur).coolRelay = s.coolRelay ∧
    (seedPhase s cur).previousTemp =
      (if s.previousTemp = 0 then cur else s.previousTemp) := by
  unfold seedPhase
  split_ifs <;> simp_all

/-- C10: config ingestion leaves `cooling_state` and
`cooling_off_count` untouched; the `waiting -> off` test compares the
counter against the `minimum_off_mins` current at that cycle; hence
after installing a new Config mid-cooldown the very next waiting cycle
already uses the new `minimumOffMins` with the old counter — neither a
counter reset nor a latch of the old duration. -/
theorem C10_cooldown_config_swap :
    (∀ (s : SysState) (msg : Option ConfigMsg),
       (handleConfigMessage s msg).coolingState = s.coolingState ∧
       (handleConfigMessage s msg).coolingOffCount = s.coolingOffCount) ∧
    (∀ (s : SysState) (dv : ℚ) (M : ℤ),
       s.coolingState = CoolingState.waiting →
       s.minimumOffMins = some M →
       s.pubHighLimit.isSome →
       (coolStep s dv).2 = true ∧
       (coolStep s dv).1.coolRelay = false ∧
       (coolStep s dv).1.coolingOffCount = s.coolingOffCount + 1 ∧
       ((coolStep s dv).1.coolingState = CoolingState.off ↔
         s.coolingOffCount + 1 ≥ M - 1)) ∧
    (∀ (s : SysState) (m : ConfigMsg) (dv : ℚ) (M : ℤ),
       s.coolingState = CoolingState.waiting →
       s.pubHighLimit.isSome →
       (handleConfigMessage s (some m)).minimumOffMins = some M →
       (coolStep (handleConfigMessage s (some m)) dv).1.coolingOffCount =
         s.coolingOffCount + 1 ∧
       ((coolStep (handleConfigMessage s (some m)) dv).1.coolingState =
           CoolingState.off ↔ s.coolingOffCount + 1 ≥ M - 1)) := by
  refine ⟨?_, ?_, ?_⟩
  · intro s msg
    have hf := handleConfig_frame s msg
    exact ⟨hf.2.2.1, hf.2.1⟩
  · intro s dv M hw hM hh
    exact coolStep_waiting_char s dv M hw hM hh
  · intro s m dv M hw hh hM
    have hf := handleConfig_frame s (some m)
    have hchar := coolStep_waiting_char (handleConfigMessage s (some m)) dv M
      (by rw [hf.2.2.1, hw]) hM (by rw [hf.2.2.2.2.2.2.1]; exact hh)
    refine ⟨?_, ?_⟩
    · rw [hchar.2.2.1, hf.2.1]
    · rw [hchar.2.2.2, hf.2.1]

/-- A state four cycles into a cooldown under a Config demanding a
99-minute cooldown. -/
def c10Waiting : SysState :=
  { initialState with
      coolingState := CoolingState.waiting
      coolingOffCount := 3
      baseHighTemp := some 10
      pubHighLimit := some 10
      minimumOffMins := some 99 }

/-- A replacement Config that shortens the cooldown to 5 minutes. -/
def c10NewMsg : ConfigMsg := ⟨TimeField.valid 0, some 1, some 10, some 5, true, none⟩

/-- C10 witness: installing the 5-minute Config during the 99-minute
cooldown makes the very next waiting cycle use the new duration with
the preserved counter — `3 + 1 ≥ 5 - 1`, so the machine leaves
`waiting`. -/
theorem C10_cooldown_config_swap_witness :
    (coolStep (handleConfigMessage c10Waiting (some c10NewMsg)) 0).1.coolingOffCount =
      (3 : ℤ) + 1 ∧
    ((coolStep (handleConfigMessage c10Waiting (some c10NewMsg)) 0).1.coolingState =
        CoolingState.off ↔ (3 : ℤ) + 1 ≥ 5 - 1) :=
  C10_cooldown_config_swap.2.2 c10Waiting c10NewMsg 0 5 rfl (by decide) (by decide)

/-- The cooling block preserves the relay/state agreement and, from
`waiting`, always commands the relay off (or leaves it off when the
demand comparison raises). -/
theorem coolStep_relay_iff (s : SysState) (dv : ℚ)
    (h : s.coolRelay = true ↔ s.coolingState = CoolingState.on) :
    ((coolStep s dv).1.coolRelay = true ↔
      (coolStep s dv).1.coolingState = CoolingState.on) ∧
    (s.coolingState = CoolingState.waiting → (coolStep s dv).1.coolRelay = false) := by
  unfold coolStep coolOffBranch
  cases htr : truthyQ s.baseHighTemp <;> rcases hhl : s.pubHighLimit with _ | hl <;>
    rcases hcs : s.coolingState with _ | _ | _ <;>
      rcases hm : s.minimumOffMins with _ | m <;>
        simp_all <;> try (split_ifs <;> simp_all)

/-- The whole decision phase preserves the relay/state agreement and
holds the relay off across any cycle entered in `waiting`. -/
theorem decisionPhase_relay_iff (s : SysState) (dv : ℚ)
    (h : s.coolRelay = true ↔ s.coolingState = CoolingState.on) :
    ((decisionPhase s dv).1.coolRelay = true ↔
      (decisionPhase s dv).1.coolingState = CoolingState.on) ∧
    (s.coolingState = CoolingState.waiting →
      (decisionPhase s dv).1.coolRelay = false) := by
  obtain ⟨-, -, -, -, -, hcs, -, -, -, -, -, -, hcr⟩ := heatStep_frame s dv
  have hwf : s.coolingState = CoolingState.waiting → s.coolRelay = false := by
    intro hw
    cases hcrel : s.coolRelay
    · rfl
    · exact absurd (h.mp hcrel) (by simp [hw])
  have hinvh : (heatStep s dv).1.coolRelay = true ↔
      (heatStep s dv).1.coolingState = CoolingState.on := by
    rw [hcr, hcs]; exact h
  have hc := coolStep_relay_iff (heatStep s dv).1 dv hinvh
  simp only [decisionPhase]
  split
  · exact ⟨hinvh, fun hw => by rw [hcr]; exact hwf hw⟩
  · exact ⟨hc.1, fun hw => hc.2 (by rw [hcs]; exact hw)⟩

/-- One full cycle preserves the relay/state agreement and holds the
relay off across any cycle entered in `waiting` — whether the cycle
completes or aborts at any modelled raise point. -/
theorem runCycle_relay_iff (s : SysState) (raw : ℚ) (d : ℤ)
    (h : s.coolRelay = true ↔ s.coolingState = CoolingState.on) :
    ((runCycle s raw d).state.coolRelay = true ↔
      (runCycle s raw d).state.coolingState = CoolingState.on) ∧
    (s.coolingState = CoolingState.waiting →
      (runCycle s raw d).state.coolRelay = false) := by
  have hwf : s.coolingState = CoolingState.waiting → s.coolRelay = false := by
    intro hw
    cases hcrel : s.coolRelay
    · rfl
    · exact absurd (h.mp hcrel) (by simp [hw])
  simp only [runCycle]
  set cur := convertTemp s.pubTempUnitF raw with hcur
  set s2 := seedPhase s cur with hs2
  set ra := adjPhase s2 d with hra
  set dv := (cur + s2.previousTemp) / 2 with hdv
  obtain ⟨-, -, -, -, hscs, -, -, -, -, -, -, -, hscr, -⟩ := seedPhase_frame s cur
  obtain ⟨-, -, -, -, -, hacs, -, -, -, -, hacr⟩ := adjPhase_frame s2 d
  have hinva : ra.1.coolRelay = true ↔ ra.1.coolingState = CoolingState.on := by
    rw [hacr, hacs, hscr, hscs]; exact h
  have hwfa : s.coolingState = CoolingState.waiting → ra.1.coolRelay = false := by
    intro hw
    rw [hacr, hscr]; exact hwf hw
  have hdp := decisionPhase_relay_iff ra.1 dv hinva
  split_ifs
  · exact ⟨hinva, hwfa⟩
  · exact ⟨hdp.1, fun hw => hdp.2 (by rw [hacs, hscs]; exact hw)⟩
  · exact ⟨hdp.1, fun hw => hdp.2 (by rw [hacs, hscs]; exact hw)⟩

/-- C2: the cooling relay command agrees with the cooling state — it is
on exactly when the cycle's resulting `cooling_state` is `'on'` — from
startup, across every config ingestion and every decision cycle; and in
particular every cycle entered with `cooling_state == 'waiting'`
commands (or leaves) the cooling relay off, no matter the demand. -/
theorem C2_relay_iff_on :
    (initialState.coolRelay = true ↔ initialState.coolingState = CoolingState.on) ∧
    (∀ (s : SysState) (msg : Option ConfigMsg),
       (s.coolRelay = true ↔ s.coolingState = CoolingState.on) →
       ((handleConfigMessage s msg).coolRelay = true ↔
         (handleConfigMessage s msg).coolingState = CoolingState.on)) ∧
    (∀ (s : SysState) (raw : ℚ) (d : ℤ),
       (s.coolRelay = true ↔ s.coolingState = CoolingState.on) →
       (((runCycle s raw d).state.coolRelay = true ↔
          (runCycle s raw d).state.coolingState = CoolingState.on) ∧
        (s.coolingState = CoolingState.waiting →
          (runCycle s raw d).state.coolRelay = false))) := by
  refine ⟨by decide, ?_, ?_⟩
  · intro s msg h
    have hf := handleConfig_frame s msg
    rw [hf.2.2.2.2.2.2.2.2, hf.2.2.1]
    exact h
  · intro s raw d h
    exact runCycle_relay_iff s raw d h

/-- A state mid-cooldown with continuous demand (decision value 100
above the limit 10). -/
def c2Waiting : SysState :=
  { initialState with
      coolingState := CoolingState.waiting
      coolingOffCount := 0
      baseHighTemp := some 10
      baseLowTemp := some 5
      pubHighLimit := some 10
      pubLowLimit := some 5
      minimumOffMins := some 3
      previousTemp := 100 }

/-- C2 witness: a cycle entered in `waiting` with demand present keeps
the cooling relay off and the relay/state agreement. -/
theorem C2_relay_iff_on_witness :
    ((runCycle c2Waiting 100 0).state.coolRelay = true ↔
      (runCycle c2Waiting 100 0).state.coolingState = CoolingState.on) ∧
    (c2Waiting.coolingState = CoolingState.waiting →
      (runCycle c2Waiting 100 0).state.coolRelay = false) :=
  C2_relay_iff_on.2.2 c2Waiting 100 0 (by decide)

/-! ## Closed form of the `demandOnce` cooldown run -/

/-- `'off'` with demand: relay on, state `'on'`, counter untouched. -/
theorem coolMachine_off_demand (m c : ℤ) :
    coolMachine m true (CoolingState.off, c) = (true, CoolingState.on, c) := by
  norm_num [coolMachine, coolFixture, coolStep, coolOffBranch, truthyQ]
  simp

/-- `'off'` without demand: everything held. -/
theorem coolMachine_off_nodemand (m c : ℤ) :
    coolMachine m false (CoolingState.off, c) = (false, CoolingState.off, c) := by
  norm_num [coolMachine, coolFixture, coolStep, coolOffBranch, truthyQ]

/-- `'on'` without demand: relay off, state `'waiting'`, counter reset. -/
theorem coolMachine_on_nodemand (m c : ℤ) :
    coolMachine m false (CoolingState.on, c) = (false, CoolingState.waiting, 0) := by
  norm_num [coolMachine, coolFixture, coolStep, coolOffBranch, truthyQ]

/-- `'waiting'`, any demand: relay off, counter incremented, and the
state leaves `'waiting'` for `'off'` exactly when the incremented
counter reaches `m - 1`. -/
theorem coolMachine_waiting (m c : ℤ) (d : Bool) :
    coolMachine m d (CoolingState.waiting, c) =
      (false, if c + 1 ≥ m - 1 then CoolingState.off else CoolingState.waiting,
       c + 1) := by
  cases d <;> by_cases hc : c + 1 ≥ m - 1 <;>
    norm_num [coolMachine, coolFixture, coolStep, coolOffBranch, truthyQ, hc]

/-- The successor equation of the `demandOnce` run. -/
theorem coolTrajC1_succ (m : ℤ) (i : ℕ) :
    coolTrajC1 m (i + 1) = (coolMachine m (demandOnce i) (coolTrajC1 m i)).2 := rfl

/-- Without demand the relay is never commanded on. -/
theorem coolMachine_nodemand_relay (m : ℤ) (p : CoolingState × ℤ) :
    (coolMachine m false p).1 = false := by
  rcases p with ⟨st, c⟩
  rcases st
  · rw [coolMachine_off_nodemand]
  · rw [coolMachine_on_nodemand]
  · rw [coolMachine_waiting]

/-- After the demanding cycle 0 the machine is `'on'`. -/
theorem coolTrajC1_one (m : ℤ) : coolTrajC1 m 1 = (CoolingState.on, 0) := by
  show (coolMachine m (demandOnce 0) (coolTrajC1 m 0)).2 = _
  rw [show demandOnce 0 = true from rfl,
    show coolTrajC1 m 0 = (CoolingState.off, 0) from rfl, coolMachine_off_demand]

/-- After cycle 1 (demand gone) the machine is `'waiting'` with counter 0. -/
theorem coolTrajC1_two (m : ℤ) : coolTrajC1 m 2 = (CoolingState.waiting, 0) := by
  show (coolMachine m (demandOnce 1) (coolTrajC1 m 1)).2 = _
  rw [show demandOnce 1 = false from rfl, coolTrajC1_one, coolMachine_on_nodemand]

/-- While `j + 2 ≤ M`, the machine is still `'waiting'` before cycle
`j + 2`, with counter `j`. -/
theorem coolTrajC1_waiting (M : ℕ) (j : ℕ) (hj : j + 2 ≤ M) :
    coolTrajC1 (M : ℤ) (j + 2) = (CoolingState.waiting, (j : ℤ)) := by
  induction j with
  | zero => exact coolTrajC1_two (M : ℤ)
  | succ k ih =>
    have hk : k + 2 ≤ M := by omega
    have hd : demandOnce (k + 2) = false := by simp [demandOnce]
    have hlt : ¬((k : ℤ) + 1 ≥ (M : ℤ) - 1) := by
      have hc : (k : ℤ) + 3 ≤ (M : ℤ) := by exact_mod_cast hj
      omega
    show (coolMachine (M : ℤ) (demandOnce (k + 2)) (coolTrajC1 (M : ℤ) (k + 2))).2 = _
    rw [ih hk, hd, coolMachine_waiting, if_neg hlt]
    norm_num

/-- At cycle `M` the counter reaches `M - 1` and the machine leaves
`'waiting'`: before cycle `M + 1` it is `'off'`. -/
theorem coolTrajC1_off (M : ℕ) (hM : 2 ≤ M) :
    coolTrajC1 (M : ℤ) (M + 1) = (CoolingState.off, (M : ℤ) - 1) := by
  have hidx : M - 2 + 2 = M := by omega
  have hw := coolTrajC1_waiting M (M - 2) (by omega)
  rw [hidx] at hw
  have hcast : ((M - 2 : ℕ) : ℤ) = (M : ℤ) - 2 := by
    have h2 : (2 : ℕ) ≤ M := hM
    push_cast [h2]
    ring
  rw [hcast] at hw
  have hd : demandOnce M = false := by
    simp only [demandOnce, decide_eq_false_iff_not]
    omega
  have hge : (M : ℤ) - 2 + 1 ≥ (M : ℤ) - 1 := by omega
  show (coolMachine (M : ℤ) (demandOnce M) (coolTrajC1 (M : ℤ) M)).2 = _
  rw [hw, hd, coolMachine_waiting, if_pos hge]
  simp
  omega

/-- Once `'off'` again with no demand, the machine stays there. -/
theorem coolTrajC1_off_stable (M : ℕ) (hM : 2 ≤ M) (k : ℕ) :
    coolTrajC1 (M : ℤ) (M + 1 + k) = (CoolingState.off, (M : ℤ) - 1) := by
  induction k with
  | zero => exact coolTrajC1_off M hM
  | succ n ih =>
    have hd : demandOnce (M + 1 + n) = false := by simp [demandOnce]
    show (coolMachine (M : ℤ) (demandOnce (M + 1 + n)) (coolTrajC1 (M : ℤ) (M + 1 + n))).2 = _
    rw [ih, hd, coolMachine_off_nodemand]

/-- C1 (amended): for every `minimumOffMinutes ≥ 2`, running the
cooling block from `'off'` with demand on cycle 0 only: the relay is
commanded on exactly at cycle 0; the state after cycle 0 is `'on'`,
after cycles 1 … M−1 it is `'waiting'`, and from the end of cycle M on
it is `'off'` (`coolTrajC1 M i` is the state *before* cycle `i`); so
the relay-off cycles from the cycle demand stopped (cycle 1) to the
first cycle able to re-engage (cycle M+1, the first whose starting
state is `'off'` again) are exactly cycles 1 … M — `M` of them — and
the `waiting -> off` transition fires at cycle `M`, when the counter
(last conjunct) has just reached `M - 1`.  For `minimumOffMinutes = 1`
the claimed count is wrong — see the counterexample. -/
theorem C1_cooldown_trace (M : ℕ) (hM : 2 ≤ M) :
    (∀ i : ℕ, coolRelayC1 (M : ℤ) i = decide (i = 0)) ∧
    (coolTrajC1 (M : ℤ) 1).1 = CoolingState.on ∧
    (∀ i : ℕ, 2 ≤ i → i ≤ M → (coolTrajC1 (M : ℤ) i).1 = CoolingState.waiting) ∧
    (∀ i : ℕ, M + 1 ≤ i → (coolTrajC1 (M : ℤ) i).1 = CoolingState.off) ∧
    (coolTrajC1 (M : ℤ) (M + 1)).2 = (M : ℤ) - 1 := by
  refine ⟨?_, ?_, ?_, ?_, ?_⟩
  · intro i
    cases i with
    | zero =>
      show (coolMachine (M : ℤ) (demandOnce 0) (coolTrajC1 (M : ℤ) 0)).1 = _
      rw [show demandOnce 0 = true from rfl,
        show coolTrajC1 (M : ℤ) 0 = (CoolingState.off, 0) from rfl,
        coolMachine_off_demand]
      rfl
    | succ n =>
      show (coolMachine (M : ℤ) (demandOnce (n + 1)) (coolTrajC1 (M : ℤ) (n + 1))).1 = _
      rw [show demandOnce (n + 1) = false from by simp [demandOnce],
        coolMachine_nodemand_relay]
      simp
  · rw [coolTrajC1_one]
  · intro i h2 hle
    obtain ⟨j, rfl⟩ : ∃ j, i = j + 2 := ⟨i - 2, by omega⟩
    rw [coolTrajC1_waiting M j (by omega)]
  · intro i hge
    obtain ⟨k, rfl⟩ : ∃ k, i = M + 1 + k := ⟨i - (M + 1), by omega⟩
    rw [coolTrajC1_off_stable M hM k]
  · rw [coolTrajC1_off M hM]

/-- C1 counterexample, at `minimumOffMinutes = 1`: the claim puts the
first re-engageable cycle at cycle 2 (exactly one relay-off cycle,
cycle 1, after demand stops), but before cycle 2 the machine is still
`'waiting'` — it only returns to `'off'` before cycle 3, so two
relay-off cycles elapse (`max(minimumOffMinutes, 2)`, not
`minimumOffMinutes`). -/
theorem C1_min_one_counterexample :
    (coolTrajC1 1 2).1 = CoolingState.waiting ∧
    coolRelayC1 1 2 = false ∧
    (coolTrajC1 1 3).1 = CoolingState.off ∧
    coolRelayC1 1 1 = false := by decide

/-- C1 witness at `minimumOffMinutes = 3`: relay on at cycle 0 only,
`'waiting'` before cycle 3, `'off'` before cycle 4 — three off cycles
(1, 2, 3), cooling able to re-engage at cycle 4. -/
theorem C1_cooldown_trace_witness :
    coolRelayC1 ((3 : ℕ) : ℤ) 0 = decide ((0 : ℕ) = 0) ∧
    (coolTrajC1 ((3 : ℕ) : ℤ) 3).1 = CoolingState.waiting ∧
    (coolTrajC1 ((3 : ℕ) : ℤ) 4).1 = CoolingState.off :=
  ⟨(C1_cooldown_trace 3 (by norm_num)).1 0,
   (C1_cooldown_trace 3 (by norm_num)).2.2.1 3 (by norm_num) (by norm_num),
   (C1_cooldown_trace 3 (by norm_num)).2.2.2.1 4 (by norm_num)⟩

/-! ## Heating decision (C5, C6) -/

/-- The spec's worked example: `baseLowLimit=68, baseHighLimit=75`,
empty schedule, Celsius unit, freshly ingested. -/
def c5Msg : ConfigMsg := ⟨TimeField.valid 0, some 68, some 75, some 3, true, none⟩

/-- The state right after ingesting `c5Msg`. -/
def c5Installed : SysState := handleConfigMessage initialState (some c5Msg)

/-- C5 (amended): whenever the heating decision of lines 171–175 runs
with a populated active low limit, the heat relay is commanded on iff
`base_low_temp` is *truthy* — configured with a nonzero value — and the
decision value is below the active low limit; the decision reads
nothing of the cooling machine (the `∀ s` ranges over every cooling
state: no cooldown guard on heating).  On the spec's worked example
(68/75, adjustment 0, decision value 67.9) the cycle completes with
heat on and cool off.  For a configured limit of exactly 0 the claim's
"configured" reading fails — see the counterexample. -/
theorem C5_heat_decision_amended :
    (∀ (s : SysState) (dv ll : ℚ), s.pubLowLimit = some ll →
       ((heatStep s dv).2 = true ∧
        ((heatStep s dv).1.heatRelay = true ↔
          (truthyQ s.baseLowTemp = true ∧ dv < ll)))) ∧
    ((runCycle c5Installed (679 / 10) 0).completed = true ∧
     (runCycle c5Installed (679 / 10) 0).state.heatRelay = true ∧
     (runCycle c5Installed (679 / 10) 0).state.coolRelay = false) := by
  constructor
  · intro s dv ll hll
    unfold heatStep
    cases htr : truthyQ s.baseLowTemp <;> simp [hll, htr]
  · norm_num [runCycle, seedPhase, adjPhase, determineTempAdjustment, scanAdjust,
      decisionPhase, heatStep, coolStep, coolOffBranch, truthyQ, convertTemp,
      c5Installed, c5Msg, handleConfigMessage, parseScheduleStep, initialState]

/-- A Config whose low limit is present but `0` — falsy in Python. -/
def c5ZeroMsg : ConfigMsg := ⟨TimeField.valid 0, some 0, some 50, some 3, true, none⟩

/-- The state right after ingesting `c5ZeroMsg`. -/
def c5ZeroInstalled : SysState := handleConfigMessage initialState (some c5ZeroMsg)

/-- C5 counterexample: with `baseLowLimit` configured as `0` (so
`activeLowLimit = 0`) and decision value `-2 < 0`, the claim demands
the heat relay on, but `if base_low_temp and ...` treats the configured
`0` as falsy and the completed cycle leaves the heat relay off. -/
theorem C5_zero_low_limit_counterexample :
    c5ZeroInstalled.baseLowTemp = some 0 ∧
    (runCycle c5ZeroInstalled (-2) 0).completed = true ∧
    (runCycle c5ZeroInstalled (-2) 0).state.pubLowLimit = some 0 ∧
    (runCycle c5ZeroInstalled (-2) 0).dv = -2 ∧
    (runCycle c5ZeroInstalled (-2) 0).dv < 0 ∧
    (runCycle c5ZeroInstalled (-2) 0).state.heatRelay = false := by
  norm_num [runCycle, seedPhase, adjPhase, determineTempAdjustment, scanAdjust,
    decisionPhase, heatStep, coolStep, coolOffBranch, truthyQ, convertTemp,
    c5ZeroInstalled, c5ZeroMsg, handleConfigMessage, parseScheduleStep, initialState]

/-- C5 witness: the general heat-decision shape at the worked example's
numbers (68 truthy, 67.9 < 68 ⇒ relay on). -/
theorem C5_heat_decision_amended_witness :
    (heatStep { c5Installed with pubLowLimit := some 68 } (679 / 10)).2 = true ∧
    ((heatStep { c5Installed with pubLowLimit := some 68 } (679 / 10)).1.heatRelay = true ↔
      (truthyQ ({ c5Installed with pubLowLimit := some 68 } : SysState).baseLowTemp = true ∧
        (679 / 10 : ℚ) < 68)) :=
  C5_heat_decision_amended.1 { c5Installed with pubLowLimit := some 68 } (679 / 10) 68 rfl

/-- A Config disabling the cooling stage: `highTempLimit` absent
(`null`), heating configured at `68`. -/
def c6Msg : ConfigMsg := ⟨TimeField.valid 0, some 68, none, some 3, true, none⟩

/-- The state right after ingesting `c6Msg`. -/
def c6Installed : SysState := handleConfigMessage initialState (some c6Msg)

/-- C6: claim right, code wrong.  With exactly one base limit absent
(here the high limit), every cycle with a non-negative `days_in`
crashes: `determine_temp_adjustment` computes
`publish_data['highTempLimit'] = base_high_temp + adjustment`, a
`None + number` TypeError, so the cycle body aborts before the
decisions.  At reading 60 (decision value 60 < 68) the claim demands a
completed cycle with the heat relay driven on; the code leaves the
cycle incomplete with both relays untouched (off). -/
theorem C6_absent_limit_cycle_aborts :
    c6Installed.configDone = true ∧
    c6Installed.baseLowTemp = some 68 ∧
    c6Installed.baseHighTemp = none ∧
    (determineTempAdjustment c6Installed 0).2 = false ∧
    (runCycle c6Installed 60 0).completed = false ∧
    (runCycle c6Installed 60 0).dv = 60 ∧
    (runCycle c6Installed 60 0).dv < 68 ∧
    (runCycle c6Installed 60 0).state.heatRelay = false ∧
    (runCycle c6Installed 60 0).state.coolRelay = false := by
  norm_num [runCycle, seedPhase, adjPhase, determineTempAdjustment, scanAdjust,
    decisionPhase, heatStep, coolStep, coolOffBranch, truthyQ, convertTemp,
    c6Installed, c6Msg, handleConfigMessage, parseScheduleStep, initialState]

/-! ## Negative elapsed days (C8) -/

/-- The heating decision cannot raise once the active low limit is
populated. -/
theorem heatStep_completes (s : SysState) (dv : ℚ)
    (h : s.pubLowLimit.isSome = true) : (heatStep s dv).2 = true := by
  obtain ⟨ll, hll⟩ := Option.isSome_iff_exists.mp h
  unfold heatStep
  cases htr : truthyQ s.baseLowTemp <;> simp [hll]

/-- The cooling decision cannot raise once the active high limit and
`minimum_off_mins` are populated. -/
theorem coolStep_completes (s : SysState) (dv : ℚ)
    (hh : s.pubHighLimit.isSome = true) (hm : s.minimumOffMins.isSome = true) :
    (coolStep s dv).2 = true := by
  obtain ⟨hl, hhl⟩ := Option.isSome_iff_exists.mp hh
  obtain ⟨m, hmm⟩ := Option.isSome_iff_exists.mp hm
  unfold coolStep coolOffBranch
  cases htr : truthyQ s.baseHighTemp <;> rcases hcs : s.coolingState <;>
    simp [hhl, hmm, hcs] <;> split_ifs <;> simp_all

/-- The whole decision phase cannot raise once both active limits and
`minimum_off_mins` are populated. -/
theorem decisionPhase_completes (s : SysState) (dv : ℚ)
    (hlo : s.pubLowLimit.isSome = true) (hhi : s.pubHighLimit.isSome = true)
    (hm : s.minimumOffMins.isSome = true) : (decisionPhase s dv).2 = true := by
  obtain ⟨-, hmo, -, -, -, -, -, -, -, hpl, hph, -, -⟩ := heatStep_frame s dv
  have h1 := heatStep_completes s dv hlo
  have h2 := coolStep_completes (heatStep s dv).1 dv (by rw [hph]; exact hhi)
    (by rw [hmo]; exact hm)
  simp only [decisionPhase]
  split <;> simp_all

/-- C8 (amended): in every decision cycle whose computed `days_in` is
negative, the error event is published and the schedule-adjustment step
is skipped, so `activeLowLimit`/`activeHighLimit` and
`schedule_adjustment` keep their prior-cycle values exactly; and —
provided the active limits and `minimum_off_mins` are already
populated, as any prior completed adjustment cycle under a full Config
leaves them — the rest of the cycle (heating/cooling decisions, status
emission) still runs to completion.  On the very first cycle after
startup the active limits are still `None` and the claim's
"still runs" part fails — see the counterexample. -/
theorem C8_negative_days_amended (s : SysState) (raw : ℚ) (d : ℤ)
    (hd : d < 0) (hlo : s.pubLowLimit.isSome = true)
    (hhi : s.pubHighLimit.isSome = true) (hmin : s.minimumOffMins.isSome = true) :
    (runCycle s raw d).negDaysError = true ∧
    (runCycle s raw d).completed = true ∧
    (runCycle s raw d).state.pubLowLimit = s.pubLowLimit ∧
    (runCycle s raw d).state.pubHighLimit = s.pubHighLimit ∧
    (runCycle s raw d).state.scheduleAdjustment = s.scheduleAdjustment := by
  simp only [runCycle]
  set cur := convertTemp s.pubTempUnitF raw with hcur
  set s2 := seedPhase s cur with hs2
  set dv := (cur + s2.previousTemp) / 2 with hdv
  obtain ⟨hsmo, -, -, -, -, -, -, hsa, hspl, hsph, -, -, -, -⟩ := seedPhase_frame s cur
  have hadj : adjPhase s2 d = (s2, true) := by simp [adjPhase, hd]
  have hdc : (decisionPhase s2 dv).2 = true :=
    decisionPhase_completes s2 dv (by rw [hspl]; exact hlo) (by rw [hsph]; exact hhi)
      (by rw [hsmo]; exact hmin)
  obtain ⟨-, -, -, -, -, -, hda, hdpl, hdph, -⟩ := decisionPhase_frame s2 dv
  rw [hadj]
  simp [hdc, hd, hdpl, hdph, hda, hspl, hsph, hsa]
  exact ⟨hspl, hsph, hsa⟩

/-- C8 counterexample: the first decision cycle after ingesting the
full 68/75 Config, with `days_in = -1` (start time in the future).  The
error is published and the limits stay `None` — but then the heating
comparison against the `None` limit raises TypeError, so the rest of
the cycle does NOT run: it aborts with the relays undriven and no
status, against the claim's "still runs rather than aborting". -/
theorem C8_first_cycle_negative_days_counterexample :
    (runCycle c5Installed 70 (-1)).negDaysError = true ∧
    (runCycle c5Installed 70 (-1)).state.pubLowLimit = none ∧
    (runCycle c5Installed 70 (-1)).state.pubHighLimit = none ∧
    c5Installed.baseLowTemp = some 68 ∧
    (runCycle c5Installed 70 (-1)).completed = false := by
  norm_num [runCycle, seedPhase, adjPhase, determineTempAdjustment, scanAdjust,
    decisionPhase, heatStep, coolStep, coolOffBranch, truthyQ, convertTemp,
    c5Installed, c5Msg, handleConfigMessage, parseScheduleStep, initialState]

/-- A populated mid-run state: limits 68/75 active, cooldown parameter
present. -/
def c8Populated : SysState :=
  { initialState with
      baseLowTemp := some 68
      baseHighTemp := some 75
      minimumOffMins := some 3
      pubLowLimit := some 68
      pubHighLimit := some 75
      pubTempUnitF := false
      previousTemp := 70
      scheduleAdjustment := 0 }

/-- C8 witness: a negative-days cycle on the populated state reports
the error, keeps the limits, and completes. -/
theorem C8_negative_days_amended_witness :
    (runCycle c8Populated 71 (-5)).negDaysError = true ∧
    (runCycle c8Populated 71 (-5)).completed = true ∧
    (runCycle c8Populated 71 (-5)).state.pubLowLimit = c8Populated.pubLowLimit ∧
    (runCycle c8Populated 71 (-5)).state.pubHighLimit = c8Populated.pubHighLimit ∧
    (runCycle c8Populated 71 (-5)).state.scheduleAdjustment =
      c8Populated.scheduleAdjustment :=
  C8_negative_days_amended c8Populated 71 (-5) (by norm_num) rfl rfl rfl

/-! ## Smoothing-seed behaviour (C7) -/

/-- A Config for studying the seed across a run: low limit `0` (falsy,
heating never raises), high limit `1`, Celsius, empty schedule. -/
def traceMsg : ConfigMsg := ⟨TimeField.valid 0, some 0, some 1, some 3, true, none⟩

/-- The state right after ingesting `traceMsg` — a fresh process with
`previous_temp` still `0.0`. -/
def traceStart : SysState := handleConfigMessage initialState (some traceMsg)

/-- The state before cycle `i` of the run that reads `r 0, r 1, …`
(each cycle at `days_in = 0`). -/
def runTrace (r : ℕ → ℚ) : ℕ → SysState
  | 0 => traceStart
  | i + 1 => (runCycle (runTrace r i) (r i) 0).state

/-- The decision value `(current + previous) / 2` used by cycle `i` of
that run. -/
def traceDv (r : ℕ → ℚ) (i : ℕ) : ℚ := (runCycle (runTrace r i) (r i) 0).dv

/-- One cycle under the `traceMsg` configuration always completes,
hands `previous_temp = raw` to the next cycle, keeps the config fields,
and uses decision value `(raw + previous) / 2` where `previous` is
re-seeded to `raw` exactly when the cycle began with
`previous_temp == 0.0`. -/
theorem trace_cycle_char (s : SysState) (raw : ℚ)
    (hu : s.pubTempUnitF = false) (hlo : s.baseLowTemp = some 0)
    (hhi : s.baseHighTemp = some 1) (hm : s.minimumOffMins = some 3)
    (hdl : s.scheduleAdjustDays = []) (hdt : s.scheduleAdjustTemp = []) :
    (runCycle s raw 0).completed = true ∧
    (runCycle s raw 0).dv =
      (raw + (if s.previousTemp = 0 then raw else s.previousTemp)) / 2 ∧
    (runCycle s raw 0).state.previousTemp = raw ∧
    (runCycle s raw 0).state.pubTempUnitF = false ∧
    (runCycle s raw 0).state.baseLowTemp = some 0 ∧
    (runCycle s raw 0).state.baseHighTemp = some 1 ∧
    (runCycle s raw 0).state.minimumOffMins = some 3 ∧
    (runCycle s raw 0).state.scheduleAdjustDays = [] ∧
    (runCycle s raw 0).state.scheduleAdjustTemp = [] := by
  by_cases hp : s.previousTemp = 0 <;>
    rcases hcs : s.coolingState <;>
      norm_num [runCycle, seedPhase, adjPhase, determineTempAdjustment, scanAdjust,
        decisionPhase, heatStep, coolStep, coolOffBranch, truthyQ, convertTemp,
        hu, hlo, hhi, hm, hdl, hdt, hp, hcs] <;>
      split_ifs <;> simp_all

/-- Along the whole run, the config fields persist and the state before
cycle `i + 1` carries `previous_temp = r i` (cycle 0 starts at `0.0`). -/
theorem runTrace_char (r : ℕ → ℚ) (i : ℕ) :
    (runTrace r i).pubTempUnitF = false ∧
    (runTrace r i).baseLowTemp = some 0 ∧
    (runTrace r i).baseHighTemp = some 1 ∧
    (runTrace r i).minimumOffMins = some 3 ∧
    (runTrace r i).scheduleAdjustDays = [] ∧
    (runTrace r i).scheduleAdjustTemp = [] ∧
    (runTrace r i).previousTemp = (match i with | 0 => 0 | j + 1 => r j) := by
  induction i with
  | zero => exact ⟨rfl, rfl, rfl, rfl, rfl, rfl, rfl⟩
  | succ j ih =>
    obtain ⟨h1, h2, h3, h4, h5, h6, h7⟩ := ih
    have hc := trace_cycle_char (runTrace r j) (r j) h1 h2 h3 h4 h5 h6
    exact ⟨hc.2.2.2.1, hc.2.2.2.2.1, hc.2.2.2.2.2.1, hc.2.2.2.2.2.2.1,
      hc.2.2.2.2.2.2.2.1, hc.2.2.2.2.2.2.2.2, hc.2.2.1⟩

/-- C7 (amended): the seeding predicate is `previous_temp == 0.0`, so
in a run whose readings are never exactly `0.0` the seed fires exactly
once, at the first cycle — the first decision value is the
instantaneous first reading, and every later cycle smooths the carried
previous reading; a reading of exactly `0.0`, however, makes the next
cycle re-seed (counterexample). -/
theorem C7_seeding_amended (r : ℕ → ℚ) (hr : ∀ i, r i ≠ 0) :
    (∀ i, (runCycle (runTrace r i) (r i) 0).completed = true) ∧
    traceDv r 0 = r 0 ∧
    (∀ i, traceDv r (i + 1) = (r (i + 1) + r i) / 2) := by
  refine ⟨?_, ?_, ?_⟩
  · intro i
    obtain ⟨h1, h2, h3, h4, h5, h6, h7⟩ := runTrace_char r i
    exact (trace_cycle_char _ _ h1 h2 h3 h4 h5 h6).1
  · obtain ⟨h1, h2, h3, h4, h5, h6, h7⟩ := runTrace_char r 0
    have hc := trace_cycle_char (runTrace r 0) (r 0) h1 h2 h3 h4 h5 h6
    rw [traceDv, hc.2.1, h7, if_pos rfl]
    ring
  · intro i
    obtain ⟨h1, h2, h3, h4, h5, h6, h7⟩ := runTrace_char r (i + 1)
    have hc := trace_cycle_char (runTrace r (i + 1)) (r (i + 1)) h1 h2 h3 h4 h5 h6
    rw [traceDv, hc.2.1, h7, if_neg (hr i)]

/-- C7 witness: on the constant nonzero trace `5, 5, …` the first
decision value is the instantaneous reading and the second smooths the
carried one. -/
theorem C7_seeding_amended_witness :
    traceDv (fun _ => (5 : ℚ)) 0 = 5 ∧
    traceDv (fun _ => (5 : ℚ)) 1 = (5 + 5) / 2 :=
  ⟨(C7_seeding_amended (fun _ => 5) (fun _ => by norm_num)).2.1,
   (C7_seeding_amended (fun _ => 5) (fun _ => by norm_num)).2.2 0⟩

/-- A Config with a truthy low limit `4` to make the re-seed visible in
the heat relay. -/
def c7Msg : ConfigMsg := ⟨TimeField.valid 0, some 4, some 50, some 3, true, none⟩

/-- The state right after ingesting `c7Msg`. -/
def c7Installed : SysState := handleConfigMessage initialState (some c7Msg)

/-- The state after a first cycle that read exactly `0.0`. -/
def c7AfterZero : SysState := (runCycle c7Installed 0 0).state

/-- C7 counterexample: after a completed first cycle reading exactly
`0.0`, the next cycle (reading `6`) starts with the carried
`previous_temp = 0.0` and re-seeds: its decision value is `6`, not the
claim's un-re-seeded `(6 + 0) / 2 = 3`, and consequently the heat relay
stays off although `3 < 4` would have demanded heat — the seeding is
not once-per-process-lifetime. -/
theorem C7_reseed_counterexample :
    (runCycle c7Installed 0 0).completed = true ∧
    c7AfterZero.previousTemp = 0 ∧
    c7AfterZero.pubLowLimit = some 4 ∧
    (runCycle c7AfterZero 6 0).completed = true ∧
    (runCycle c7AfterZero 6 0).dv = 6 ∧
    (runCycle c7AfterZero 6 0).dv ≠ (6 + 0) / 2 ∧
    (runCycle c7AfterZero 6 0).state.heatRelay = false := by
  norm_num [runCycle, seedPhase, adjPhase, determineTempAdjustment, scanAdjust,
    decisionPhase, heatStep, coolStep, coolOffBranch, truthyQ, convertTemp,
    c7AfterZero, c7Installed, c7Msg, handleConfigMessage, parseScheduleStep,
    initialState]

end TempControl
